import Mathlib

/-!
Verification of the SimplyFitness Typeform webhook handler
(`kissinger/typeform-webhook/webhook-handler/app.py`).

The Python source is shallowly embedded: each relevant Python function
becomes a Lean definition of the same name; Python dict values of mixed
type become the sum type `PyVal`; key presence becomes `Option`; a Python
exception becomes `Except.error` / `Option.none`; the orchestrator's
external calls (Cognito, DynamoDB, SQS, Slack, SSM) are modelled by an
explicit `World` record fixing the outcome of each call.
-/

namespace SimplyFitness

/-- A Python value as it appears in the answer maps: the webhook keeps
strings, numbers and booleans unconverted until f-string interpolation. -/
inductive PyVal where
  | str (s : String)
  | int (n : Int)
  | bool (b : Bool)
deriving DecidableEq, Repr

/-- Python `str()` of a boolean. -/
def pyStrBool (b : Bool) : String := if b then "True" else "False"

/-- Rendering of a `PyVal` by f-string interpolation (`str()`). -/
def PyVal.toStr : PyVal → String
  | .str s => s
  | .int n => toString n
  | .bool b => pyStrBool b

/-- Python `==` between a raw answer value and a string literal: only a
string value can compare equal. -/
def PyVal.eqStr : PyVal → String → Bool
  | .str t, s => t == s
  | _, _ => false

/-- Python truthiness of a raw answer value: non-empty string, non-zero
number, `True`. -/
def PyVal.truthy : PyVal → Bool
  | .str s => s != ""
  | .int n => n != 0
  | .bool b => b

/-- Python dict lookup for a dict represented as its assignment history:
the LAST binding of a key wins, as for repeated `d[k] = v` assignments. -/
def dget {α : Type} : List (String × α) → String → Option α
  | [], _ => none
  | (k, v) :: rest, q =>
      match dget rest q with
      | some w => some w
      | none => if k == q then some v else none

/-- The `{"id": ..., "title": ...}` entries of `definition.fields`. -/
structure FormField where
  id : String
  title : String
deriving DecidableEq, Repr

/-- The value under a `choice` tag: `{"label": ...}`. -/
structure ChoiceVal where
  label : String
deriving DecidableEq, Repr

/-- The value under a `choices` tag: `{"labels": [...], "other": ...}`,
where the `other` key may be absent. -/
structure ChoicesVal where
  labels : List String
  other : Option String
deriving DecidableEq, Repr

/-- The value under a `file` tag: `{"url": ...}`. -/
structure FileVal where
  url : String
deriving DecidableEq, Repr

/-- The value under a `payment` tag: `{"successful": ...}`. -/
structure PaymentVal where
  successful : Bool
deriving DecidableEq, Repr

/-- One element of the `answers` list. A key of the Python answer dict is
present exactly when the corresponding field is `some`. -/
structure FormAnswer where
  fieldId : String
  text : Option String := none
  email : Option String := none
  phone_number : Option String := none
  date : Option String := none
  choice : Option ChoiceVal := none
  choices : Option ChoicesVal := none
  number : Option Int := none
  boolean : Option Bool := none
  file : Option FileVal := none
  payment : Option PaymentVal := none
  url : Option String := none
deriving DecidableEq, Repr

/-- The if/elif chain of `map_question_id_to_answer` for one answer.
`Except.error` models the `KeyError` raised by `choices["other"]` when
`labels` is empty and no `other` key is present. -/
def normalize_answer (a : FormAnswer) : Except String PyVal :=
  match a.text with
  | some t => .ok (.str t)
  | none =>
  match a.email with
  | some e => .ok (.str e)
  | none =>
  match a.phone_number with
  | some p => .ok (.str p)
  | none =>
  match a.date with
  | some d => .ok (.str d)
  | none =>
  match a.choice with
  | some c => .ok (.str c.label)
  | none =>
  match a.choices with
  | some cs =>
      if cs.labels.isEmpty then
        match cs.other with
        | some o => .ok (.str o)
        | none => .error "KeyError: other"
      else .ok (.str (String.intercalate ", " cs.labels))
  | none =>
  match a.number with
  | some n => .ok (.int n)
  | none =>
  match a.boolean with
  | some b => .ok (.bool b)
  | none =>
  match a.file with
  | some f => .ok (.str f.url)
  | none =>
  match a.payment with
  | some p => .ok (.str (pyStrBool p.successful))
  | none =>
  match a.url with
  | some u => .ok (.str u)
  | none => .ok (.str "Answer type not supported")

/-- `map_question_id_to_answer`: builds the `fieldId -> value` dict; any
`KeyError` from an answer aborts the whole loop (the Python `except`
clause logs and re-raises). -/
def map_question_id_to_answer : List FormAnswer → Except String (List (String × PyVal))
  | [] => .ok []
  | a :: rest => do
      let v ← normalize_answer a
      let d ← map_question_id_to_answer rest
      return (a.fieldId, v) :: d

/-- `get_question_id_to_title`: the `fieldId -> title` dict from
`definition.fields`. -/
def get_question_id_to_title (fields : List FormField) : List (String × String) :=
  fields.map fun f => (f.id, f.title)

/-- One entry of `question_answer_pairs`: `{"title": ..., "answer": ...}`. -/
structure QAPair where
  title : String
  answer : PyVal
deriving DecidableEq, Repr

/-- The merge loop of `lambda_handler` (lines 103-106): one pair per entry
of the title dict, answer defaulting to the empty string. -/
def build_question_answer_pairs (titles : List (String × String))
    (answers : List (String × PyVal)) : List (String × QAPair) :=
  titles.map fun kv => (kv.1, ⟨kv.2, (dget answers kv.1).getD (.str "")⟩)

/-- `safe_get_answer`: the stored answer, or the sentinel when the field id
is absent from the pair dict. -/
def safe_get_answer (pairs : List (String × QAPair)) (qid : String) : PyVal :=
  match dget pairs qid with
  | some p => p.answer
  | none => .str "Not provided"

/-- The module-level `ignore_field_ids` constant (it is defined in the
source and never read by any function). -/
def ignore_field_ids : List String :=
  ["hyZIUMruIaXZ", "DG63NL7WQMQA", "Yx4jU94HrZmO", "kLdRBGA1phAA",
   "SB28ys4LYLWo", "54JOGweXXfUn", "aDs7YLH9f0NP", "cFB9zg6V03V1",
   "jzD4M5NDiXE5", "XoyWSU4xb6RZ", "3o0DVt2WkDHX", "Gr2JZAJzJJt1",
   "4VITOv32D9hb"]

/-! ### Age computation (`calculate_age`) -/

/-- Leap-year rule of the Gregorian calendar, as `datetime` validates it. -/
def isLeapYear (y : Nat) : Bool :=
  y % 4 == 0 && (y % 100 != 0 || y % 400 == 0)

/-- Number of days of month `m` of year `y`, as `datetime` validates it. -/
def daysInMonth (y m : Nat) : Nat :=
  if m == 2 then (if isLeapYear y then 29 else 28)
  else if m == 4 || m == 6 || m == 9 || m == 11 then 30
  else 31

/-- Digits of a numeric component, or `none` when a character is not a
digit or the component is empty. -/
def parseNatDigits (cs : List Char) : Option Nat :=
  match cs with
  | [] => none
  | _ =>
    if cs.all (·.isDigit) then
      some (cs.foldl (fun acc c => acc * 10 + (c.toNat - 48)) 0)
    else none

/-- Python `str.split(sep)` for a one-character separator, over the
character list. -/
def splitOnChar (sep : Char) : List Char → List (List Char)
  | [] => [[]]
  | c :: rest =>
      let r := splitOnChar sep rest
      if c == sep then [] :: r
      else
        match r with
        | [] => [[c]]
        | h :: t => (c :: h) :: t

/-- `datetime.strptime(s, "%Y-%m-%d")` restricted to its accepted inputs:
a 4-digit year, a dash, a 1-2 digit month, a dash, a 1-2 digit day, with
month and day validated against the calendar. `none` models `ValueError`. -/
def parseDateYMD (s : String) : Option (Nat × Nat × Nat) :=
  match splitOnChar (Char.ofNat 45) s.data with
  | [yc, mc, dc] => do
      if yc.length == 4 && (mc.length == 1 || mc.length == 2)
          && (dc.length == 1 || dc.length == 2) then
        let y ← parseNatDigits yc
        let m ← parseNatDigits mc
        let d ← parseNatDigits dc
        if 1 ≤ m && m ≤ 12 && 1 ≤ d && d ≤ daysInMonth y m then
          some (y, m, d)
        else none
      else none
  | _ => none

/-- Python tuple comparison `(a1, a2) < (b1, b2)`. -/
def pairLt (a b : Nat × Nat) : Bool :=
  a.1 < b.1 || (a.1 == b.1 && a.2 < b.2)

/-- `calculate_age`: parse the birthdate, then
`today.year - birth.year - ((today.month, today.day) < (birth.month, birth.day))`
with the boolean coerced to 0 or 1. `none` models the re-raised exception
on an unparseable birthdate; `today` stands for `datetime.now()`. -/
def calculate_age (birthdate_str : String) (today : Nat × Nat × Nat) : Option Int :=
  match parseDateYMD birthdate_str with
  | none => none
  | some (y, m, d) =>
      some ((today.1 : Int) - (y : Int)
        - (if pairLt (today.2.1, today.2.2) (m, d) then 1 else 0))

/-! ### Emoji stripping (`remove_emojis`) -/

/-- Whether code point `n` is matched by the character class of the
`emoji_pattern` regex, range by range in source order. -/
def inEmojiRange (n : Nat) : Bool :=
  (0x1F1E0 ≤ n && n ≤ 0x1F1FF) ||
  (0x1F300 ≤ n && n ≤ 0x1F5FF) ||
  (0x1F600 ≤ n && n ≤ 0x1F64F) ||
  (0x1F680 ≤ n && n ≤ 0x1F6FF) ||
  (0x1F700 ≤ n && n ≤ 0x1F77F) ||
  (0x1F780 ≤ n && n ≤ 0x1F7FF) ||
  (0x1F800 ≤ n && n ≤ 0x1F8FF) ||
  (0x1F900 ≤ n && n ≤ 0x1F9FF) ||
  (0x1FA00 ≤ n && n ≤ 0x1FA6F) ||
  (0x1FA70 ≤ n && n ≤ 0x1FAFF) ||
  (0x2702 ≤ n && n ≤ 0x27B0) ||
  (0x24C2 ≤ n && n ≤ 0x1F251) ||
  (0x1F926 ≤ n && n ≤ 0x1F937) ||
  (0x10000 ≤ n && n ≤ 0x10FFFF) ||
  n == 0x200D ||
  (0x2640 ≤ n && n ≤ 0x2642) ||
  (0x2600 ≤ n && n ≤ 0x2B55) ||
  n == 0x23CF ||
  n == 0x23E9 ||
  n == 0x231A ||
  n == 0x3030 ||
  n == 0xFE0F

/-- `remove_emojis`: `emoji_pattern.sub("", text)` deletes every matched
code point, i.e. filters the string by the character class. -/
def remove_emojis (text : String) : String :=
  String.mk (text.data.filter fun c => !inEmojiRange c.toNat)

/-! ### Prompt composition -/

/-- The apostrophe character, as it appears in the prompt template. -/
def apos : String := String.mk [Char.ofNat 39]

/-- `format_cardio_detail`. -/
def format_cardio_detail (first_name current_cardio include_cardio_ans
    cardio_frequency cardio_length preferred_cardio_types : String) : String :=
  if current_cardio == "Yes" then
    "3. Cardio: " ++ first_name ++ " includes cardio in the workouts, doing "
      ++ cardio_frequency ++ " sessions of " ++ preferred_cardio_types
      ++ " for " ++ cardio_length ++ ". "
  else if include_cardio_ans == "Yes" then
    "3. Cardio: " ++ first_name
      ++ " plans to start including cardio in the sessions, aiming for "
      ++ cardio_frequency ++ " sessions of " ++ preferred_cardio_types
      ++ " for " ++ cardio_length ++ ". "
  else
    "3. Cardio: Don" ++ apos ++ "t include cardio in any plan. "

/-- `format_environment_detail`. The Python truthiness test
`if other_equipment` on the (string) value is the non-emptiness test. -/
def format_environment_detail (first_name workout_location gym_name
    available_equipment other_equipment : String) : String :=
  if workout_location == "Gym" then
    "4. Environment: " ++ first_name ++ " trains at " ++ gym_name ++ ". "
  else
    let equipment :=
      if other_equipment != "" then
        String.intercalate ", " [available_equipment, other_equipment]
      else available_equipment
    "4. Environment: " ++ first_name ++ " trains at home with access to "
      ++ equipment ++ ". "

/-- `format_injury_detail`. -/
def format_injury_detail (first_name physical_injuries injury_details : String) : String :=
  if physical_injuries == "Yes" then
    "7. Injury: " ++ first_name ++ " has reported " ++ injury_details ++ ". "
  else ""

/-- `format_sets_reps`. -/
def format_sets_reps (sets_reps sets_reps_custom : String) : String :=
  if sets_reps == "I have a different style" then sets_reps_custom
  else sets_reps

/-- `generate_prompt`: the f-string template over already-stringified
arguments (Python stringifies each interpolated value with `str()`). -/
def generate_prompt (first_name last_name : String) (age : Int)
    (gender fitness_level height weight fitness_goals exercise_frequency
     workout_duration weightlifting_duration number_of_exercises sets_reps
     sets_reps_custom workout_location available_equipment current_cardio
     include_cardio_ans cardio_frequency cardio_length preferred_cardio_types
     gym_name other_equipment physical_injuries injury_details : String) : String :=
  let cardio_detail := format_cardio_detail first_name current_cardio
    include_cardio_ans cardio_frequency cardio_length preferred_cardio_types
  let environment_detail := format_environment_detail first_name
    workout_location gym_name available_equipment other_equipment
  let injury_detail := format_injury_detail first_name physical_injuries injury_details
  let formatted_sets_reps := format_sets_reps sets_reps sets_reps_custom
  "Create a workout for " ++ first_name ++ " " ++ last_name ++ ", "
    ++ toString age ++ " years old, " ++ gender ++ ", fitness level: "
    ++ fitness_level ++ ", height: " ++ height ++ ", weight: " ++ weight
    ++ " lbs. "
    ++ "Fitness goals: " ++ fitness_goals ++ ". "
    ++ "Training frequency: " ++ exercise_frequency
    ++ " sessions/week, duration: " ++ workout_duration ++ " per session. "
    ++ "Each session includes " ++ weightlifting_duration
    ++ " of weightlifting with " ++ number_of_exercises ++ " performed in "
    ++ formatted_sets_reps ++ ". "
    ++ cardio_detail
    ++ environment_detail
    ++ injury_detail
    ++ "Based on " ++ first_name ++ apos
    ++ "s preferences, create a workout with a warm-up, main exercises, cardio (if included), and a cool-down."

/-! ### Prompt composition over raw answer values

`lambda_handler` passes the raw (unstringified) answer values into
`generate_prompt`; the f-strings apply `str()`, but
`format_environment_detail` also runs `', '.join([available_equipment,
other_equipment])`, which raises `TypeError` when either value is not a
string, and tests Python truthiness of the raw `other_equipment`. The
`_py` functions below are the formatters as they behave on raw values;
the string-typed versions above are their restriction to all-string
profiles (see `generate_prompt_py_all_str`). -/

/-- `format_cardio_detail` on raw values: only f-string uses, total. -/
def format_cardio_detail_py (first_name : String)
    (current_cardio include_cardio_v cardio_frequency cardio_length
     preferred_cardio_types : PyVal) : String :=
  if current_cardio.eqStr "Yes" then
    "3. Cardio: " ++ first_name ++ " includes cardio in the workouts, doing "
      ++ cardio_frequency.toStr ++ " sessions of " ++ preferred_cardio_types.toStr
      ++ " for " ++ cardio_length.toStr ++ ". "
  else if include_cardio_v.eqStr "Yes" then
    "3. Cardio: " ++ first_name
      ++ " plans to start including cardio in the sessions, aiming for "
      ++ cardio_frequency.toStr ++ " sessions of " ++ preferred_cardio_types.toStr
      ++ " for " ++ cardio_length.toStr ++ ". "
  else
    "3. Cardio: Don" ++ apos ++ "t include cardio in any plan. "

/-- `format_environment_detail` on raw values: the home branch joins the
two equipment values when `other_equipment` is truthy, and `str.join`
raises `TypeError` unless both are strings. -/
def format_environment_detail_py (first_name : String)
    (workout_location gym_name available_equipment other_equipment : PyVal) :
    Except String String :=
  if workout_location.eqStr "Gym" then
    .ok ("4. Environment: " ++ first_name ++ " trains at " ++ gym_name.toStr ++ ". ")
  else if other_equipment.truthy then
    match available_equipment, other_equipment with
    | .str a, .str o =>
        .ok ("4. Environment: " ++ first_name ++ " trains at home with access to "
          ++ String.intercalate ", " [a, o] ++ ". ")
    | _, _ => .error "TypeError: join"
  else
    .ok ("4. Environment: " ++ first_name ++ " trains at home with access to "
      ++ available_equipment.toStr ++ ". ")

/-- `format_injury_detail` on raw values: only f-string uses, total. -/
def format_injury_detail_py (first_name : String)
    (physical_injuries injury_details : PyVal) : String :=
  if physical_injuries.eqStr "Yes" then
    "7. Injury: " ++ first_name ++ " has reported " ++ injury_details.toStr ++ ". "
  else ""

/-- `format_sets_reps` on raw values: returns the chosen raw value. -/
def format_sets_reps_py (sets_reps sets_reps_custom : PyVal) : PyVal :=
  if sets_reps.eqStr "I have a different style" then sets_reps_custom
  else sets_reps

/-- `generate_prompt` on raw values: the environment formatter is the one
failure point (`TypeError` from the join), and its exception propagates
out of the composition. -/
def generate_prompt_py (first_name last_name : String) (age : Int)
    (gender fitness_level height weight fitness_goals exercise_frequency
     workout_duration weightlifting_duration number_of_exercises sets_reps
     sets_reps_custom workout_location available_equipment current_cardio
     include_cardio_v cardio_frequency cardio_length preferred_cardio_types
     gym_name other_equipment physical_injuries injury_details : PyVal) :
    Except String String :=
  let cardio_detail := format_cardio_detail_py first_name current_cardio
    include_cardio_v cardio_frequency cardio_length preferred_cardio_types
  match format_environment_detail_py first_name workout_location gym_name
      available_equipment other_equipment with
  | .error e => .error e
  | .ok environment_detail =>
    let injury_detail := format_injury_detail_py first_name physical_injuries
      injury_details
    let formatted_sets_reps := format_sets_reps_py sets_reps sets_reps_custom
    .ok ("Create a workout for " ++ first_name ++ " " ++ last_name ++ ", "
      ++ toString age ++ " years old, " ++ gender.toStr ++ ", fitness level: "
      ++ fitness_level.toStr ++ ", height: " ++ height.toStr ++ ", weight: "
      ++ weight.toStr ++ " lbs. "
      ++ "Fitness goals: " ++ fitness_goals.toStr ++ ". "
      ++ "Training frequency: " ++ exercise_frequency.toStr
      ++ " sessions/week, duration: " ++ workout_duration.toStr ++ " per session. "
      ++ "Each session includes " ++ weightlifting_duration.toStr
      ++ " of weightlifting with " ++ number_of_exercises.toStr ++ " performed in "
      ++ formatted_sets_reps.toStr ++ ". "
      ++ cardio_detail
      ++ environment_detail
      ++ injury_detail
      ++ "Based on " ++ first_name ++ apos
      ++ "s preferences, create a workout with a warm-up, main exercises, cardio (if included), and a cool-down.")

/-! ### Signature verification (`verify_signature`) -/

/-- `verify_signature(received_signature, payload)`. The composite
`base64.b64encode(hmac.new(secret, payload, hashlib.sha256).digest()).decode()`
is library code outside the repository and is passed in as `hmac_b64`;
`secret = none` models an exception raised by `get_parameter` (or any
other step), which the `except` clause turns into `False`. -/
def verify_signature (hmac_b64 : String → String → String)
    (secret : Option String) (received_signature payload : String) : Bool :=
  match secret with
  | none => false
  | some s => hmac_b64 s payload == received_signature

/-- The signature Typeform would attach: the same composite digest. -/
def sign_payload (hmac_b64 : String → String → String)
    (secret payload : String) : String :=
  hmac_b64 secret payload

/-! ### Substring helper (for containment statements about the prompt) -/

/-- Whether `pat` is a leading segment of `l`. -/
def startsWithChars : List Char → List Char → Bool
  | [], _ => true
  | _ :: _, [] => false
  | a :: as, b :: bs => a == b && startsWithChars as bs

/-- Whether `pat` occurs contiguously inside `l`. -/
def hasSubChars (pat : List Char) : List Char → Bool
  | [] => startsWithChars pat []
  | c :: rest => startsWithChars pat (c :: rest) || hasSubChars pat rest

/-- Whether `pat` occurs contiguously inside `s`. -/
def strHasSub (s pat : String) : Bool := hasSubChars pat.data s.data

/-! ### The orchestrator (`lambda_handler`) -/

/-- Outcome of `get_cognito_user`: success with the `given_name` and
`family_name` attributes (each possibly absent), `UserNotFoundException`,
or any other exception. -/
inductive CognitoRes where
  | ok (given_name family_name : Option String)
  | notFound
  | err
deriving DecidableEq, Repr

/-- `get_cognito_user_attribute` result under f-string interpolation:
Python prints `None` for an absent attribute. -/
def optAttrStr : Option String → String
  | none => "None"
  | some s => s

/-- The outcomes of the external calls and the payload of one invocation.
`signatureValid` is the value `verify_signature` returns on this request;
`today` stands for `datetime.now()` in `calculate_age`. -/
structure World where
  signatureHeader : Option String
  signatureValid : Bool
  cognitoGet : CognitoRes
  updateOk : Bool
  fields : List FormField
  answers : List FormAnswer
  today : Nat × Nat × Nat
  notifyOk : Bool
  saveOk : Bool
  sqsOk : Bool

/-- A handler outcome: an HTTP response `{"statusCode": ..., "body": ...}`
(the body's `detail` field when present), or an exception propagating out
of the handler unhandled. -/
inductive HResult where
  | response (statusCode : Nat) (detail : Option String)
  | unhandled (msg : String)
deriving DecidableEq, Repr

/-- The status code of a result, `none` for an unhandled exception. -/
def HResult.code : HResult → Option Nat
  | .response c _ => some c
  | .unhandled _ => none

/-- Python `received_signature.split("=", 1)` followed by the 2-tuple
unpacking: `none` models the `ValueError` when no `=` occurs. -/
def splitOnceChar (c : Char) : List Char → Option (List Char × List Char)
  | [] => none
  | x :: xs =>
      if x == c then some ([], xs)
      else match splitOnceChar c xs with
        | some (l, r) => some (x :: l, r)
        | none => none

/-- Split the signature header at the first `=` into hash name and value. -/
def splitSigHeader (s : String) : Option (String × String) :=
  (splitOnceChar (Char.ofNat 61) s.data).map fun p => (String.mk p.1, String.mk p.2)

/-- `lambda_handler`, control flow and data flow from the source:
signature gate (`if not received_signature` is Python truthiness, so a
missing and an empty header both reject), Cognito lookup and update,
extraction, age computation, prompt composition over the raw answer
values followed by emoji stripping, Slack notification, DynamoDB write,
SQS publish. Soft failures return 200 with a detail message; exceptions
with no `except` clause (extraction, age computation, the composition
join, notification) end `unhandled`. -/
def lambda_handler (w : World) : HResult :=
  match w.signatureHeader with
  | none => .response 403 (some "Permission denied.")
  | some header =>
  if header == "" then .response 403 (some "Permission denied.")
  else
  match splitSigHeader header with
  | none => .unhandled "ValueError: not enough values to unpack"
  | some (sha_name, _signature) =>
  if sha_name != "sha256" then .response 403 (some "Operation not supported.")
  else if !w.signatureValid then
    .response 403 (some "Invalid signature. Permission Denied.")
  else
  match w.cognitoGet with
  | .notFound => .response 200 (some "User not found.")
  | .err => .response 200 (some "User not found.")
  | .ok given_name family_name =>
  if !w.updateOk then .response 200 (some "Unable to update user with typeformIds.")
  else
  let question_id_to_title := get_question_id_to_title w.fields
  match map_question_id_to_answer w.answers with
  | .error e => .unhandled e
  | .ok question_id_to_answer =>
  let pairs := build_question_answer_pairs question_id_to_title question_id_to_answer
  match safe_get_answer pairs "VYsICm8rAEYx" with
  | .int _ => .unhandled "TypeError: strptime"
  | .bool _ => .unhandled "TypeError: strptime"
  | .str birthdate =>
  match calculate_age birthdate w.today with
  | none => .unhandled "ValueError: strptime"
  | some age =>
  match generate_prompt_py
    (optAttrStr given_name) (optAttrStr family_name) age
    (safe_get_answer pairs "7NgJc6n3fYKa")
    (safe_get_answer pairs "dN0leyRXTKwb")
    (safe_get_answer pairs "Ie0vINxRmbiE")
    (safe_get_answer pairs "U00Hv7HSJJE1")
    (safe_get_answer pairs "EKEiaNAbhs9B")
    (safe_get_answer pairs "v3luF8GH8oTn")
    (safe_get_answer pairs "4qftExcBXdrX")
    (safe_get_answer pairs "wORIrsd4ZVLR")
    (safe_get_answer pairs "nY5mGGjAbXgZ")
    (safe_get_answer pairs "VYFQXGfIQyAy")
    (safe_get_answer pairs "hLOuuzKYATVt")
    (safe_get_answer pairs "umri0ewHbWux")
    (safe_get_answer pairs "9CnfCXmUgSXo")
    (safe_get_answer pairs "zYfBaTZMNkFI")
    (safe_get_answer pairs "lKUgraPL2qDa")
    (safe_get_answer pairs "ZRYPo085Loaz")
    (safe_get_answer pairs "L5vTS0xxncEz")
    (safe_get_answer pairs "qu9e790LtDZh")
    (safe_get_answer pairs "fStabAHHt7Hw")
    (safe_get_answer pairs "F0T49AYX7sf2")
    (safe_get_answer pairs "zp6cr5EGryS5")
    (safe_get_answer pairs "TDFLXROBWg4r") with
  | .error e => .unhandled e
  | .ok composed =>
  let _prompt := remove_emojis composed
  if !w.notifyOk then .unhandled "SlackNotificationError"
  else if !w.saveOk then .response 200 (some "Unable to save user story to db.")
  else .response 200 none

/-- A concrete invocation with every external call succeeding and one
date answer, used to instantiate the orchestrator theorems. -/
def sampleWorld : World :=
  { signatureHeader := some "sha256=abc", signatureValid := true,
    cognitoGet := .ok (some "Ana") (some "Lee"), updateOk := true,
    fields := [⟨"VYsICm8rAEYx", "Birthdate"⟩],
    answers := [{fieldId := "VYsICm8rAEYx", date := some "1990-06-15"}],
    today := (2024, 6, 15), notifyOk := true, saveOk := true, sqsOk := true }

/-! ## Helper lemmas -/

/-- `dget` through a key-preserving `map`: the looked-up value is the image
of the stored one under the mapping function at that key. -/
theorem dget_map_keyed {β γ : Type} (g : String × β → γ) (l : List (String × β))
    (q : String) :
    dget (l.map fun kv => (kv.1, g kv)) q = (dget l q).map fun v => g (q, v) := by
  induction l with
  | nil => rfl
  | cons kv rest ih =>
    obtain ⟨k, v⟩ := kv
    cases hr : dget rest q with
    | some w =>
      have h0 : dget (rest.map fun kv => (kv.1, g kv)) q = some (g (q, w)) := by
        rw [ih, hr]; rfl
      simp [dget, h0, hr]
    | none =>
      have h0 : dget (rest.map fun kv => (kv.1, g kv)) q = none := by
        rw [ih, hr]; rfl
      by_cases hk : (k == q) = true
      · have hkq : k = q := eq_of_beq hk
        subst hkq
        simp [dget, h0, hr, hk]
      · simp [dget, h0, hr, hk]

/-- A key occurring in the dict has a binding under `dget`. -/
theorem dget_isSome_of_key_mem {β : Type} (l : List (String × β)) (k : String)
    (h : k ∈ l.map Prod.fst) : ∃ v, dget l k = some v := by
  induction l with
  | nil => simp at h
  | cons kv rest ih =>
    obtain ⟨k1, v1⟩ := kv
    simp only [List.map_cons, List.mem_cons] at h
    cases hr : dget rest k with
    | some w => exact ⟨w, by simp [dget, hr]⟩
    | none =>
      rcases h with h | h
      · subst h
        exact ⟨v1, by simp [dget, hr]⟩
      · obtain ⟨w, hw⟩ := ih h
        rw [hw] at hr
        exact absurd hr (by simp)

/-- `remove_emojis` keeps a string none of whose characters match. -/
theorem remove_emojis_id_of_no_match (s : String)
    (h : ∀ c ∈ s.data, inEmojiRange c.toNat = false) : remove_emojis s = s := by
  unfold remove_emojis
  have hf : s.data.filter (fun c => !inEmojiRange c.toNat) = s.data := by
    apply List.filter_eq_self.mpr
    intro c hc
    simp [h c hc]
  rw [hf]

/-- No ASCII code point is in the emoji character class. -/
theorem ascii_not_in_emoji_range : ∀ n < 128, inEmojiRange n = false := by decide

/-- A header that splits at `=` is not the empty string. -/
theorem splitSigHeader_ne_empty {sha sig : String} (hd : String)
    (h : splitSigHeader hd = some (sha, sig)) : (hd == "") = false := by
  cases hb : hd == ""
  · rfl
  · have he : hd = "" := eq_of_beq hb
    subst he
    have h0 : splitSigHeader "" = none := rfl
    rw [h0] at h
    exact Option.noConfusion h

/-- On an all-string profile the raw-value composition succeeds and
agrees with the string-level template used by the program when every
interpolated value is a string. -/
theorem generate_prompt_py_all_str (fn ln : String) (age : Int)
    (g fl ht wt fg ef wd wld ne sr src wl ae cc ic cf cl pct gy oe pi idt : String) :
    generate_prompt_py fn ln age (.str g) (.str fl) (.str ht) (.str wt) (.str fg)
      (.str ef) (.str wd) (.str wld) (.str ne) (.str sr) (.str src) (.str wl)
      (.str ae) (.str cc) (.str ic) (.str cf) (.str cl) (.str pct) (.str gy)
      (.str oe) (.str pi) (.str idt)
    = .ok (generate_prompt fn ln age g fl ht wt fg ef wd wld ne sr src wl ae cc
        ic cf cl pct gy oe pi idt) := by
  simp only [generate_prompt_py, generate_prompt, format_cardio_detail_py,
    format_cardio_detail, format_environment_detail_py, format_environment_detail,
    format_injury_detail_py, format_injury_detail, format_sets_reps_py,
    format_sets_reps, PyVal.eqStr, PyVal.truthy, PyVal.toStr]
  split_ifs <;> rfl

/-- When the environment formatter succeeds, so does the whole raw-value
composition: the join is its only failure point. -/
theorem generate_prompt_py_ok_of_env (fn ln : String) (age : Int)
    (g fl ht wt fg ef wd wld ne sr src wl ae cc ic cf cl pct gy oe pi idt : PyVal)
    (env : String)
    (henv : format_environment_detail_py fn wl gy ae oe = .ok env) :
    ∃ p, generate_prompt_py fn ln age g fl ht wt fg ef wd wld ne sr src wl ae cc
      ic cf cl pct gy oe pi idt = .ok p := by
  simp only [generate_prompt_py]
  rw [henv]
  exact ⟨_, rfl⟩

/-- When the environment formatter raises, the raw-value composition
propagates exactly that exception. -/
theorem generate_prompt_py_error_of_env (fn ln : String) (age : Int)
    (g fl ht wt fg ef wd wld ne sr src wl ae cc ic cf cl pct gy oe pi idt : PyVal)
    (e : String)
    (henv : format_environment_detail_py fn wl gy ae oe = .error e) :
    generate_prompt_py fn ln age g fl ht wt fg ef wd wld ne sr src wl ae cc
      ic cf cl pct gy oe pi idt = .error e := by
  simp only [generate_prompt_py]
  rw [henv]

/-! ## Claims -/

/-- C1: an answer carrying exactly one value-shape tag is normalized by
the if/elif precedence chain (text, email, phone_number, date, choice
label, choices join-or-other, number, boolean, file url, stringified
payment success, url), and an answer carrying no known tag maps to the
literal string "Answer type not supported" without the extraction loop
failing. -/
theorem C1_answer_normalization :
    (∀ fid t, normalize_answer {fieldId := fid, text := some t} = .ok (.str t))
  ∧ (∀ fid e, normalize_answer {fieldId := fid, email := some e} = .ok (.str e))
  ∧ (∀ fid p, normalize_answer {fieldId := fid, phone_number := some p} = .ok (.str p))
  ∧ (∀ fid d, normalize_answer {fieldId := fid, date := some d} = .ok (.str d))
  ∧ (∀ fid l, normalize_answer {fieldId := fid, choice := some ⟨l⟩} = .ok (.str l))
  ∧ (∀ fid ls o, ls ≠ [] →
      normalize_answer {fieldId := fid, choices := some ⟨ls, o⟩}
        = .ok (.str (String.intercalate ", " ls)))
  ∧ (∀ fid o, normalize_answer {fieldId := fid, choices := some ⟨[], some o⟩}
        = .ok (.str o))
  ∧ (∀ fid n, normalize_answer {fieldId := fid, number := some n} = .ok (.int n))
  ∧ (∀ fid b, normalize_answer {fieldId := fid, boolean := some b} = .ok (.bool b))
  ∧ (∀ fid u, normalize_answer {fieldId := fid, file := some ⟨u⟩} = .ok (.str u))
  ∧ (∀ fid b, normalize_answer {fieldId := fid, payment := some ⟨b⟩}
        = .ok (.str (pyStrBool b)))
  ∧ (∀ fid u, normalize_answer {fieldId := fid, url := some u} = .ok (.str u))
  ∧ (∀ a : FormAnswer, a.text = none → a.email = none → a.phone_number = none →
      a.date = none → a.choice = none → a.choices = none → a.number = none →
      a.boolean = none → a.file = none → a.payment = none → a.url = none →
      map_question_id_to_answer [a]
        = .ok [(a.fieldId, .str "Answer type not supported")]) := by
  refine ⟨fun _ _ => rfl, fun _ _ => rfl, fun _ _ => rfl, fun _ _ => rfl,
    fun _ _ => rfl, ?_, fun _ _ => rfl, fun _ _ => rfl, fun _ _ => rfl,
    fun _ _ => rfl, fun _ _ => rfl, fun _ _ => rfl, ?_⟩
  · intro fid ls o h
    cases ls with
    | nil => exact absurd rfl h
    | cons x xs => rfl
  · intro a h1 h2 h3 h4 h5 h6 h7 h8 h9 h10 h11
    simp only [map_question_id_to_answer, normalize_answer,
      h1, h2, h3, h4, h5, h6, h7, h8, h9, h10, h11]
    rfl

/-- Witness for C1 at concrete inputs. -/
theorem C1_answer_normalization_witness :
    normalize_answer {fieldId := "f1", choices := some ⟨["A", "B"], none⟩}
      = .ok (.str "A, B")
  ∧ map_question_id_to_answer [{fieldId := "f2"}]
      = .ok [("f2", .str "Answer type not supported")] := by
  obtain ⟨-, -, -, -, -, h6, -, -, -, -, -, -, h13⟩ := C1_answer_normalization
  exact ⟨h6 "f1" ["A", "B"] none (by decide),
    h13 {fieldId := "f2"} rfl rfl rfl rfl rfl rfl rfl rfl rfl rfl rfl⟩

/-- C2: a multi-choice answer with non-empty labels normalizes to the
labels joined with ", ", and one with empty labels normalizes to the
free-text other value; in particular labels ["A","B"] give "A, B" and
empty labels with other = "Custom" give "Custom". -/
theorem C2_multichoice_join :
    (∀ fid ls o, ls ≠ [] →
      normalize_answer {fieldId := fid, choices := some ⟨ls, o⟩}
        = .ok (.str (String.intercalate ", " ls)))
  ∧ (∀ fid o, normalize_answer {fieldId := fid, choices := some ⟨[], some o⟩}
        = .ok (.str o))
  ∧ normalize_answer {fieldId := "fc", choices := some ⟨["A", "B"], none⟩}
      = .ok (.str "A, B")
  ∧ normalize_answer {fieldId := "fc", choices := some ⟨[], some "Custom"⟩}
      = .ok (.str "Custom") := by
  refine ⟨?_, fun _ _ => rfl, rfl, rfl⟩
  intro fid ls o h
  cases ls with
  | nil => exact absurd rfl h
  | cons x xs => rfl

/-- Witness for C2 at concrete inputs. -/
theorem C2_multichoice_join_witness :
    normalize_answer {fieldId := "fw", choices := some ⟨["X", "Y", "Z"], some "ignored"⟩}
      = .ok (.str "X, Y, Z") := by
  exact C2_multichoice_join.1 "fw" ["X", "Y", "Z"] (some "ignored") (by decide)

/-- C10: a multi-choice answer with empty labels and no other key raises
(`choices["other"]` is a `KeyError`, re-raised by the extraction loop), so
extraction fails hard instead of producing a default, and the whole
pipeline invocation ends in an unhandled exception. -/
theorem C10_empty_choices_raises :
    normalize_answer {fieldId := "f0", choices := some ⟨[], none⟩}
      = .error "KeyError: other"
  ∧ map_question_id_to_answer [{fieldId := "f0", choices := some ⟨[], none⟩}]
      = .error "KeyError: other"
  ∧ lambda_handler
      { signatureHeader := some "sha256=abc", signatureValid := true,
        cognitoGet := .ok (some "Ana") (some "Lee"), updateOk := true,
        fields := [⟨"f0", "Q0"⟩],
        answers := [{fieldId := "f0", choices := some ⟨[], none⟩}],
        today := (2024, 6, 15), notifyOk := true, saveOk := true, sqsOk := true }
      = .unhandled "KeyError: other" := by
  exact ⟨rfl, rfl, rfl⟩

/-- C3: emoji stripping preserves every character outside the documented
ranges (so it is the identity on a string with no matching character), is
the identity on pure ASCII input, and maps "Café 🎉🔥" to "Café ". -/
theorem C3_remove_emojis :
    (∀ s : String, (∀ c ∈ s.data, inEmojiRange c.toNat = false) → remove_emojis s = s)
  ∧ (∀ s : String, (∀ c ∈ s.data, c.toNat < 128) → remove_emojis s = s)
  ∧ remove_emojis "Café 🎉🔥" = "Café " := by
  refine ⟨remove_emojis_id_of_no_match, ?_, by decide⟩
  intro s h
  exact remove_emojis_id_of_no_match s fun c hc =>
    ascii_not_in_emoji_range c.toNat (h c hc)

/-- Witness for C3 at concrete inputs. -/
theorem C3_remove_emojis_witness :
    remove_emojis "Cool-down!" = "Cool-down!" ∧ remove_emojis "José" = "José" := by
  exact ⟨C3_remove_emojis.2.1 "Cool-down!" (by decide),
    C3_remove_emojis.1 "José" (by decide)⟩

/-- C4: on a parseable YYYY-MM-DD birthdate the computed age is the year
difference minus one exactly when the reference (month, day) pair is
lexicographically below the birth (month, day) pair (Python tuple
comparison), with the documented values on "1990-06-15". -/
theorem C4_calculate_age :
    (∀ a b c d : Nat, pairLt (a, b) (c, d) = true ↔ (a < c ∨ (a = c ∧ b < d)))
  ∧ (∀ (s : String) (y m d ry rm rd : Nat), parseDateYMD s = some (y, m, d) →
      calculate_age s (ry, rm, rd)
        = some ((ry : Int) - (y : Int)
            - (if pairLt (rm, rd) (m, d) then 1 else 0)))
  ∧ calculate_age "1990-06-15" (2024, 6, 14) = some 33
  ∧ calculate_age "1990-06-15" (2024, 6, 15) = some 34
  ∧ (∀ rm rd : Nat, pairLt (rm, rd) (6, 15) = false →
      calculate_age "1990-06-15" (2024, rm, rd) = some 34) := by
  have hp : parseDateYMD "1990-06-15" = some (1990, 6, 15) := by decide
  refine ⟨?_, ?_, by decide, by decide, ?_⟩
  · intro a b c d
    simp [pairLt]
  · intro s y m d ry rm rd h
    simp [calculate_age, h]
  · intro rm rd h
    simp [calculate_age, hp, h]

/-- Witness for C4 at concrete inputs. -/
theorem C4_calculate_age_witness :
    calculate_age "2000-02-29" (2024, 2, 28) = some 23
  ∧ calculate_age "1990-06-15" (2024, 12, 31) = some 34 := by
  refine ⟨?_, C4_calculate_age.2.2.2.2 12 31 (by decide)⟩
  have h := C4_calculate_age.2.1 "2000-02-29" 2000 2 29 2024 2 28 (by decide)
  rw [h]
  decide

/-- C5: `safe_get_answer` returns the stored answer when the field id is
bound in the pair map and the sentinel "Not provided" when it is not; and
a field defined in the form whose id has no submitted answer is stored
with the empty string by the merge, so resolving it yields "" rather than
the sentinel. -/
theorem C5_safe_get_answer :
    (∀ (pairs : List (String × QAPair)) (qid : String) (p : QAPair),
      dget pairs qid = some p → safe_get_answer pairs qid = p.answer)
  ∧ (∀ (pairs : List (String × QAPair)) (qid : String),
      dget pairs qid = none → safe_get_answer pairs qid = .str "Not provided")
  ∧ (∀ (titles : List (String × String)) (answers : List (String × PyVal))
       (fid title : String), dget titles fid = some title → dget answers fid = none →
      safe_get_answer (build_question_answer_pairs titles answers) fid = .str "") := by
  refine ⟨?_, ?_, ?_⟩
  · intro pairs qid p h
    simp [safe_get_answer, h]
  · intro pairs qid h
    simp [safe_get_answer, h]
  · intro titles answers fid title h1 h2
    have hd : dget (build_question_answer_pairs titles answers) fid
        = some ⟨title, .str ""⟩ := by
      unfold build_question_answer_pairs
      rw [dget_map_keyed, h1]
      simp [h2]
    simp [safe_get_answer, hd]

/-- Witness for C5 at concrete inputs. -/
theorem C5_safe_get_answer_witness :
    safe_get_answer [("q1", ⟨"Title", .str "Hi"⟩)] "q1" = .str "Hi"
  ∧ safe_get_answer [("q1", ⟨"Title", .str "Hi"⟩)] "unknownId" = .str "Not provided"
  ∧ safe_get_answer (build_question_answer_pairs [("q2", "T2")] []) "q2" = .str "" := by
  exact ⟨C5_safe_get_answer.1 [("q1", ⟨"Title", .str "Hi"⟩)] "q1" ⟨"Title", .str "Hi"⟩ rfl,
    C5_safe_get_answer.2.1 [("q1", ⟨"Title", .str "Hi"⟩)] "unknownId" rfl,
    C5_safe_get_answer.2.2 [("q2", "T2")] [] "q2" "T2" rfl rfl⟩

/-- C9: every defined field id gets an entry in the title map and in the
question-answer-pair map, including ids listed in the (dead)
`ignore_field_ids` constant: no operation consults the list. -/
theorem C9_ignore_list_unused :
    (∀ (fields : List FormField) (f : FormField), f ∈ fields →
      ∃ t, dget (get_question_id_to_title fields) f.id = some t)
  ∧ (∀ (fields : List FormField) (answers : List (String × PyVal)) (f : FormField),
      f ∈ fields →
      ∃ p, dget (build_question_answer_pairs (get_question_id_to_title fields)
            answers) f.id = some p)
  ∧ (∀ (fields : List FormField) (answers : List (String × PyVal)) (f : FormField),
      f ∈ fields → f.id ∈ ignore_field_ids →
      ∃ p, dget (build_question_answer_pairs (get_question_id_to_title fields)
            answers) f.id = some p)
  ∧ dget (build_question_answer_pairs
        (get_question_id_to_title [⟨"hyZIUMruIaXZ", "Q"⟩]) []) "hyZIUMruIaXZ"
      = some ⟨"Q", .str ""⟩
  ∧ "hyZIUMruIaXZ" ∈ ignore_field_ids := by
  have key : ∀ (fields : List FormField) (f : FormField), f ∈ fields →
      ∃ t, dget (get_question_id_to_title fields) f.id = some t := by
    intro fields f hf
    apply dget_isSome_of_key_mem
    unfold get_question_id_to_title
    rw [List.map_map]
    exact List.mem_map_of_mem _ hf
  have pairKey : ∀ (fields : List FormField) (answers : List (String × PyVal))
      (f : FormField), f ∈ fields →
      ∃ p, dget (build_question_answer_pairs (get_question_id_to_title fields)
            answers) f.id = some p := by
    intro fields answers f hf
    obtain ⟨t, ht⟩ := key fields f hf
    refine ⟨⟨t, (dget answers f.id).getD (.str "")⟩, ?_⟩
    unfold build_question_answer_pairs
    rw [dget_map_keyed, ht]
    rfl
  exact ⟨key, pairKey, fun fields answers f hf _ => pairKey fields answers f hf,
    rfl, by decide⟩

/-- Witness for C9 at concrete inputs. -/
theorem C9_ignore_list_unused_witness :
    ∃ p, dget (build_question_answer_pairs
        (get_question_id_to_title [⟨"DG63NL7WQMQA", "Ignored question"⟩])
        [("DG63NL7WQMQA", .str "kept")]) "DG63NL7WQMQA" = some p := by
  exact C9_ignore_list_unused.2.2.1 [⟨"DG63NL7WQMQA", "Ignored question"⟩]
    [("DG63NL7WQMQA", .str "kept")] ⟨"DG63NL7WQMQA", "Ignored question"⟩
    (by simp) (by decide)

set_option maxRecDepth 100000 in
/-- C6: when `sets_reps` is the override sentinel "I have a different
style" the custom value is used verbatim, otherwise `sets_reps` itself is;
with the sentinel and custom "Pyramid sets" the composed prompt contains
"Pyramid sets" and does not contain the sentinel. -/
theorem C6_sets_reps_override :
    (∀ c, format_sets_reps "I have a different style" c = c)
  ∧ (∀ s c, s ≠ "I have a different style" → format_sets_reps s c = s)
  ∧ strHasSub (generate_prompt "Ana" "Lee" 34 "female" "beginner" "170 cm"
      "150" "tone up" "3" "45 minutes" "30 minutes" "5 exercises"
      "I have a different style" "Pyramid sets" "Gym" "dumbbells" "No" "No"
      "2" "20 minutes" "running" "Iron Temple" "" "No" "") "Pyramid sets" = true
  ∧ strHasSub (generate_prompt "Ana" "Lee" 34 "female" "beginner" "170 cm"
      "150" "tone up" "3" "45 minutes" "30 minutes" "5 exercises"
      "I have a different style" "Pyramid sets" "Gym" "dumbbells" "No" "No"
      "2" "20 minutes" "running" "Iron Temple" "" "No" "")
      "I have a different style" = false := by
  refine ⟨fun c => rfl, ?_, by decide, by decide⟩
  intro s c h
  have hb : (s == "I have a different style") = false := by
    simp [h]
  simp [format_sets_reps, hb]

/-- Witness for C6 at concrete inputs. -/
theorem C6_sets_reps_override_witness :
    format_sets_reps "I have a different style" "Pyramid sets" = "Pyramid sets"
  ∧ format_sets_reps "3x10" "unused" = "3x10" := by
  exact ⟨C6_sets_reps_override.1 "Pyramid sets",
    C6_sets_reps_override.2.1 "3x10" "unused" (by decide)⟩

/-- C7: response policy of the orchestrator. Missing (or falsy empty)
signature header, unsupported hash name and signature mismatch give 403;
Cognito lookup failure (both not-found and generic), Cognito update
failure and DynamoDB save failure give 200 with a detail message;
extraction failure, birthdate-parse failure and composition failure (the
equipment-join `TypeError` of `format_environment_detail` on a non-string
answer) escape as unhandled exceptions, as does Slack notification
failure; and the SQS publish outcome (`sqsOk`, unconstrained in the final
conjunct) never changes the 200 response of the success path. -/
theorem C7_orchestrator_paths :
    (∀ w : World, w.signatureHeader = none →
      lambda_handler w = .response 403 (some "Permission denied."))
  ∧ (∀ w : World, w.signatureHeader = some "" →
      lambda_handler w = .response 403 (some "Permission denied."))
  ∧ (∀ (w : World) (hd sha sig : String), w.signatureHeader = some hd →
      splitSigHeader hd = some (sha, sig) → sha ≠ "sha256" →
      lambda_handler w = .response 403 (some "Operation not supported."))
  ∧ (∀ (w : World) (hd sig : String), w.signatureHeader = some hd →
      splitSigHeader hd = some ("sha256", sig) → w.signatureValid = false →
      lambda_handler w = .response 403 (some "Invalid signature. Permission Denied."))
  ∧ (∀ (w : World) (hd sig : String), w.signatureHeader = some hd →
      splitSigHeader hd = some ("sha256", sig) → w.signatureValid = true →
      w.cognitoGet = .notFound →
      lambda_handler w = .response 200 (some "User not found."))
  ∧ (∀ (w : World) (hd sig : String), w.signatureHeader = some hd →
      splitSigHeader hd = some ("sha256", sig) → w.signatureValid = true →
      w.cognitoGet = .err →
      lambda_handler w = .response 200 (some "User not found."))
  ∧ (∀ (w : World) (hd sig : String) (gn fn : Option String),
      w.signatureHeader = some hd →
      splitSigHeader hd = some ("sha256", sig) → w.signatureValid = true →
      w.cognitoGet = .ok gn fn → w.updateOk = false →
      lambda_handler w = .response 200 (some "Unable to update user with typeformIds."))
  ∧ (∀ (w : World) (hd sig e : String) (gn fn : Option String),
      w.signatureHeader = some hd →
      splitSigHeader hd = some ("sha256", sig) → w.signatureValid = true →
      w.cognitoGet = .ok gn fn → w.updateOk = true →
      map_question_id_to_answer w.answers = .error e →
      lambda_handler w = .unhandled e)
  ∧ (∀ (w : World) (hd sig bs : String) (gn fn : Option String)
       (qa : List (String × PyVal)),
      w.signatureHeader = some hd →
      splitSigHeader hd = some ("sha256", sig) → w.signatureValid = true →
      w.cognitoGet = .ok gn fn → w.updateOk = true →
      map_question_id_to_answer w.answers = .ok qa →
      safe_get_answer (build_question_answer_pairs
        (get_question_id_to_title w.fields) qa) "VYsICm8rAEYx" = .str bs →
      calculate_age bs w.today = none →
      lambda_handler w = .unhandled "ValueError: strptime")
  ∧ (∀ (w : World) (hd sig bs e : String) (gn fn : Option String)
       (qa : List (String × PyVal)) (age : Int),
      w.signatureHeader = some hd →
      splitSigHeader hd = some ("sha256", sig) → w.signatureValid = true →
      w.cognitoGet = .ok gn fn → w.updateOk = true →
      map_question_id_to_answer w.answers = .ok qa →
      safe_get_answer (build_question_answer_pairs
        (get_question_id_to_title w.fields) qa) "VYsICm8rAEYx" = .str bs →
      calculate_age bs w.today = some age →
      format_environment_detail_py (optAttrStr gn)
        (safe_get_answer (build_question_answer_pairs
          (get_question_id_to_title w.fields) qa) "umri0ewHbWux")
        (safe_get_answer (build_question_answer_pairs
          (get_question_id_to_title w.fields) qa) "fStabAHHt7Hw")
        (safe_get_answer (build_question_answer_pairs
          (get_question_id_to_title w.fields) qa) "9CnfCXmUgSXo")
        (safe_get_answer (build_question_answer_pairs
          (get_question_id_to_title w.fields) qa) "F0T49AYX7sf2") = .error e →
      lambda_handler w = .unhandled e)
  ∧ (∀ (w : World) (hd sig bs env : String) (gn fn : Option String)
       (qa : List (String × PyVal)) (age : Int),
      w.signatureHeader = some hd →
      splitSigHeader hd = some ("sha256", sig) → w.signatureValid = true →
      w.cognitoGet = .ok gn fn → w.updateOk = true →
      map_question_id_to_answer w.answers = .ok qa →
      safe_get_answer (build_question_answer_pairs
        (get_question_id_to_title w.fields) qa) "VYsICm8rAEYx" = .str bs →
      calculate_age bs w.today = some age →
      format_environment_detail_py (optAttrStr gn)
        (safe_get_answer (build_question_answer_pairs
          (get_question_id_to_title w.fields) qa) "umri0ewHbWux")
        (safe_get_answer (build_question_answer_pairs
          (get_question_id_to_title w.fields) qa) "fStabAHHt7Hw")
        (safe_get_answer (build_question_answer_pairs
          (get_question_id_to_title w.fields) qa) "9CnfCXmUgSXo")
        (safe_get_answer (build_question_answer_pairs
          (get_question_id_to_title w.fields) qa) "F0T49AYX7sf2") = .ok env →
      w.notifyOk = false →
      lambda_handler w = .unhandled "SlackNotificationError")
  ∧ (∀ (w : World) (hd sig bs env : String) (gn fn : Option String)
       (qa : List (String × PyVal)) (age : Int),
      w.signatureHeader = some hd →
      splitSigHeader hd = some ("sha256", sig) → w.signatureValid = true →
      w.cognitoGet = .ok gn fn → w.updateOk = true →
      map_question_id_to_answer w.answers = .ok qa →
      safe_get_answer (build_question_answer_pairs
        (get_question_id_to_title w.fields) qa) "VYsICm8rAEYx" = .str bs →
      calculate_age bs w.today = some age →
      format_environment_detail_py (optAttrStr gn)
        (safe_get_answer (build_question_answer_pairs
          (get_question_id_to_title w.fields) qa) "umri0ewHbWux")
        (safe_get_answer (build_question_answer_pairs
          (get_question_id_to_title w.fields) qa) "fStabAHHt7Hw")
        (safe_get_answer (build_question_answer_pairs
          (get_question_id_to_title w.fields) qa) "9CnfCXmUgSXo")
        (safe_get_answer (build_question_answer_pairs
          (get_question_id_to_title w.fields) qa) "F0T49AYX7sf2") = .ok env →
      w.notifyOk = true → w.saveOk = false →
      lambda_handler w = .response 200 (some "Unable to save user story to db."))
  ∧ (∀ (w : World) (hd sig bs env : String) (gn fn : Option String)
       (qa : List (String × PyVal)) (age : Int),
      w.signatureHeader = some hd →
      splitSigHeader hd = some ("sha256", sig) → w.signatureValid = true →
      w.cognitoGet = .ok gn fn → w.updateOk = true →
      map_question_id_to_answer w.answers = .ok qa →
      safe_get_answer (build_question_answer_pairs
        (get_question_id_to_title w.fields) qa) "VYsICm8rAEYx" = .str bs →
      calculate_age bs w.today = some age →
      format_environment_detail_py (optAttrStr gn)
        (safe_get_answer (build_question_answer_pairs
          (get_question_id_to_title w.fields) qa) "umri0ewHbWux")
        (safe_get_answer (build_question_answer_pairs
          (get_question_id_to_title w.fields) qa) "fStabAHHt7Hw")
        (safe_get_answer (build_question_answer_pairs
          (get_question_id_to_title w.fields) qa) "9CnfCXmUgSXo")
        (safe_get_answer (build_question_answer_pairs
          (get_question_id_to_title w.fields) qa) "F0T49AYX7sf2") = .ok env →
      w.notifyOk = true → w.saveOk = true →
      lambda_handler w = .response 200 none) := by
  have key : ∀ (w : World) (hd sig bs env : String) (gn fn : Option String)
      (qa : List (String × PyVal)) (age : Int),
      w.signatureHeader = some hd →
      splitSigHeader hd = some ("sha256", sig) → w.signatureValid = true →
      w.cognitoGet = .ok gn fn → w.updateOk = true →
      map_question_id_to_answer w.answers = .ok qa →
      safe_get_answer (build_question_answer_pairs
        (get_question_id_to_title w.fields) qa) "VYsICm8rAEYx" = .str bs →
      calculate_age bs w.today = some age →
      format_environment_detail_py (optAttrStr gn)
        (safe_get_answer (build_question_answer_pairs
          (get_question_id_to_title w.fields) qa) "umri0ewHbWux")
        (safe_get_answer (build_question_answer_pairs
          (get_question_id_to_title w.fields) qa) "fStabAHHt7Hw")
        (safe_get_answer (build_question_answer_pairs
          (get_question_id_to_title w.fields) qa) "9CnfCXmUgSXo")
        (safe_get_answer (build_question_answer_pairs
          (get_question_id_to_title w.fields) qa) "F0T49AYX7sf2") = .ok env →
      lambda_handler w =
        (if !w.notifyOk then .unhandled "SlackNotificationError"
         else if !w.saveOk then .response 200 (some "Unable to save user story to db.")
         else .response 200 none) := by
    intro w hd sig bs env gn fn qa age h1 h2 h3 h4 h5 h6 h7 h8 henv
    have hne := splitSigHeader_ne_empty hd h2
    obtain ⟨p, hp⟩ := generate_prompt_py_ok_of_env
      (optAttrStr gn) (optAttrStr fn) age
      (safe_get_answer (build_question_answer_pairs
        (get_question_id_to_title w.fields) qa) "7NgJc6n3fYKa")
      (safe_get_answer (build_question_answer_pairs
        (get_question_id_to_title w.fields) qa) "dN0leyRXTKwb")
      (safe_get_answer (build_question_answer_pairs
        (get_question_id_to_title w.fields) qa) "Ie0vINxRmbiE")
      (safe_get_answer (build_question_answer_pairs
        (get_question_id_to_title w.fields) qa) "U00Hv7HSJJE1")
      (safe_get_answer (build_question_answer_pairs
        (get_question_id_to_title w.fields) qa) "EKEiaNAbhs9B")
      (safe_get_answer (build_question_answer_pairs
        (get_question_id_to_title w.fields) qa) "v3luF8GH8oTn")
      (safe_get_answer (build_question_answer_pairs
        (get_question_id_to_title w.fields) qa) "4qftExcBXdrX")
      (safe_get_answer (build_question_answer_pairs
        (get_question_id_to_title w.fields) qa) "wORIrsd4ZVLR")
      (safe_get_answer (build_question_answer_pairs
        (get_question_id_to_title w.fields) qa) "nY5mGGjAbXgZ")
      (safe_get_answer (build_question_answer_pairs
        (get_question_id_to_title w.fields) qa) "VYFQXGfIQyAy")
      (safe_get_answer (build_question_answer_pairs
        (get_question_id_to_title w.fields) qa) "hLOuuzKYATVt")
      (safe_get_answer (build_question_answer_pairs
        (get_question_id_to_title w.fields) qa) "umri0ewHbWux")
      (safe_get_answer (build_question_answer_pairs
        (get_question_id_to_title w.fields) qa) "9CnfCXmUgSXo")
      (safe_get_answer (build_question_answer_pairs
        (get_question_id_to_title w.fields) qa) "zYfBaTZMNkFI")
      (safe_get_answer (build_question_answer_pairs
        (get_question_id_to_title w.fields) qa) "lKUgraPL2qDa")
      (safe_get_answer (build_question_answer_pairs
        (get_question_id_to_title w.fields) qa) "ZRYPo085Loaz")
      (safe_get_answer (build_question_answer_pairs
        (get_question_id_to_title w.fields) qa) "L5vTS0xxncEz")
      (safe_get_answer (build_question_answer_pairs
        (get_question_id_to_title w.fields) qa) "qu9e790LtDZh")
      (safe_get_answer (build_question_answer_pairs
        (get_question_id_to_title w.fields) qa) "fStabAHHt7Hw")
      (safe_get_answer (build_question_answer_pairs
        (get_question_id_to_title w.fields) qa) "F0T49AYX7sf2")
      (safe_get_answer (build_question_answer_pairs
        (get_question_id_to_title w.fields) qa) "zp6cr5EGryS5")
      (safe_get_answer (build_question_answer_pairs
        (get_question_id_to_title w.fields) qa) "TDFLXROBWg4r")
      env henv
    simp [lambda_handler, h1, h2, h3, h4, h5, h6, h7, h8, hp, hne]
  refine ⟨?_, ?_, ?_, ?_, ?_, ?_, ?_, ?_, ?_, ?_, ?_, ?_, ?_⟩
  · intro w h1
    simp [lambda_handler, h1]
  · intro w h1
    simp [lambda_handler, h1]
  · intro w hd sha sig h1 h2 h3
    have hne := splitSigHeader_ne_empty hd h2
    simp [lambda_handler, h1, h2, h3, hne]
  · intro w hd sig h1 h2 h3
    have hne := splitSigHeader_ne_empty hd h2
    simp [lambda_handler, h1, h2, h3, hne]
  · intro w hd sig h1 h2 h3 h4
    have hne := splitSigHeader_ne_empty hd h2
    simp [lambda_handler, h1, h2, h3, h4, hne]
  · intro w hd sig h1 h2 h3 h4
    have hne := splitSigHeader_ne_empty hd h2
    simp [lambda_handler, h1, h2, h3, h4, hne]
  · intro w hd sig gn fn h1 h2 h3 h4 h5
    have hne := splitSigHeader_ne_empty hd h2
    simp [lambda_handler, h1, h2, h3, h4, h5, hne]
  · intro w hd sig e gn fn h1 h2 h3 h4 h5 h6
    have hne := splitSigHeader_ne_empty hd h2
    simp [lambda_handler, h1, h2, h3, h4, h5, h6, hne]
  · intro w hd sig bs gn fn qa h1 h2 h3 h4 h5 h6 h7 h8
    have hne := splitSigHeader_ne_empty hd h2
    simp [lambda_handler, h1, h2, h3, h4, h5, h6, h7, h8, hne]
  · intro w hd sig bs e gn fn qa age h1 h2 h3 h4 h5 h6 h7 h8 henv
    have hne := splitSigHeader_ne_empty hd h2
    have hgp := generate_prompt_py_error_of_env
      (optAttrStr gn) (optAttrStr fn) age
      (safe_get_answer (build_question_answer_pairs
        (get_question_id_to_title w.fields) qa) "7NgJc6n3fYKa")
      (safe_get_answer (build_question_answer_pairs
        (get_question_id_to_title w.fields) qa) "dN0leyRXTKwb")
      (safe_get_answer (build_question_answer_pairs
        (get_question_id_to_title w.fields) qa) "Ie0vINxRmbiE")
      (safe_get_answer (build_question_answer_pairs
        (get_question_id_to_title w.fields) qa) "U00Hv7HSJJE1")
      (safe_get_answer (build_question_answer_pairs
        (get_question_id_to_title w.fields) qa) "EKEiaNAbhs9B")
      (safe_get_answer (build_question_answer_pairs
        (get_question_id_to_title w.fields) qa) "v3luF8GH8oTn")
      (safe_get_answer (build_question_answer_pairs
        (get_question_id_to_title w.fields) qa) "4qftExcBXdrX")
      (safe_get_answer (build_question_answer_pairs
        (get_question_id_to_title w.fields) qa) "wORIrsd4ZVLR")
      (safe_get_answer (build_question_answer_pairs
        (get_question_id_to_title w.fields) qa) "nY5mGGjAbXgZ")
      (safe_get_answer (build_question_answer_pairs
        (get_question_id_to_title w.fields) qa) "VYFQXGfIQyAy")
      (safe_get_answer (build_question_answer_pairs
        (get_question_id_to_title w.fields) qa) "hLOuuzKYATVt")
      (safe_get_answer (build_question_answer_pairs
        (get_question_id_to_title w.fields) qa) "umri0ewHbWux")
      (safe_get_answer (build_question_answer_pairs
        (get_question_id_to_title w.fields) qa) "9CnfCXmUgSXo")
      (safe_get_answer (build_question_answer_pairs
        (get_question_id_to_title w.fields) qa) "zYfBaTZMNkFI")
      (safe_get_answer (build_question_answer_pairs
        (get_question_id_to_title w.fields) qa) "lKUgraPL2qDa")
      (safe_get_answer (build_question_answer_pairs
        (get_question_id_to_title w.fields) qa) "ZRYPo085Loaz")
      (safe_get_answer (build_question_answer_pairs
        (get_question_id_to_title w.fields) qa) "L5vTS0xxncEz")
      (safe_get_answer (build_question_answer_pairs
        (get_question_id_to_title w.fields) qa) "qu9e790LtDZh")
      (safe_get_answer (build_question_answer_pairs
        (get_question_id_to_title w.fields) qa) "fStabAHHt7Hw")
      (safe_get_answer (build_question_answer_pairs
        (get_question_id_to_title w.fields) qa) "F0T49AYX7sf2")
      (safe_get_answer (build_question_answer_pairs
        (get_question_id_to_title w.fields) qa) "zp6cr5EGryS5")
      (safe_get_answer (build_question_answer_pairs
        (get_question_id_to_title w.fields) qa) "TDFLXROBWg4r")
      e henv
    simp [lambda_handler, h1, h2, h3, h4, h5, h6, h7, h8, hgp, hne]
  · intro w hd sig bs env gn fn qa age h1 h2 h3 h4 h5 h6 h7 h8 henv h9
    rw [key w hd sig bs env gn fn qa age h1 h2 h3 h4 h5 h6 h7 h8 henv]
    simp [h9]
  · intro w hd sig bs env gn fn qa age h1 h2 h3 h4 h5 h6 h7 h8 henv h9 h10
    rw [key w hd sig bs env gn fn qa age h1 h2 h3 h4 h5 h6 h7 h8 henv]
    simp [h9, h10]
  · intro w hd sig bs env gn fn qa age h1 h2 h3 h4 h5 h6 h7 h8 henv h9 h10
    rw [key w hd sig bs env gn fn qa age h1 h2 h3 h4 h5 h6 h7 h8 henv]
    simp [h9, h10]

/-- Witness for C7: each path at a concrete invocation. -/
theorem C7_orchestrator_paths_witness :
    lambda_handler { sampleWorld with signatureHeader := none }
      = .response 403 (some "Permission denied.")
  ∧ lambda_handler { sampleWorld with signatureHeader := some "" }
      = .response 403 (some "Permission denied.")
  ∧ lambda_handler { sampleWorld with signatureHeader := some "md5=abc" }
      = .response 403 (some "Operation not supported.")
  ∧ lambda_handler { sampleWorld with signatureValid := false }
      = .response 403 (some "Invalid signature. Permission Denied.")
  ∧ lambda_handler { sampleWorld with cognitoGet := .notFound }
      = .response 200 (some "User not found.")
  ∧ lambda_handler { sampleWorld with cognitoGet := .err }
      = .response 200 (some "User not found.")
  ∧ lambda_handler { sampleWorld with updateOk := false }
      = .response 200 (some "Unable to update user with typeformIds.")
  ∧ lambda_handler { sampleWorld with
        answers := [{fieldId := "fbad", choices := some ⟨[], none⟩}] }
      = .unhandled "KeyError: other"
  ∧ lambda_handler { sampleWorld with
        answers := [{fieldId := "VYsICm8rAEYx", date := some "June 15, 1990"}] }
      = .unhandled "ValueError: strptime"
  ∧ lambda_handler { sampleWorld with
        fields := [⟨"VYsICm8rAEYx", "Birthdate"⟩, ⟨"F0T49AYX7sf2", "Other equipment"⟩],
        answers := [{fieldId := "VYsICm8rAEYx", date := some "1990-06-15"},
                    {fieldId := "F0T49AYX7sf2", number := some 5}] }
      = .unhandled "TypeError: join"
  ∧ lambda_handler { sampleWorld with notifyOk := false }
      = .unhandled "SlackNotificationError"
  ∧ lambda_handler { sampleWorld with saveOk := false }
      = .response 200 (some "Unable to save user story to db.")
  ∧ lambda_handler { sampleWorld with sqsOk := false }
      = .response 200 none := by
  obtain ⟨p1, p2, p3, p4, p5, p6, p7, p8, p9, p10, p11, p12, p13⟩ :=
    C7_orchestrator_paths
  refine ⟨p1 _ rfl, p2 _ rfl, p3 _ "md5=abc" "md5" "abc" rfl rfl (by decide),
    p4 _ "sha256=abc" "abc" rfl rfl rfl,
    p5 _ "sha256=abc" "abc" rfl rfl rfl rfl,
    p6 _ "sha256=abc" "abc" rfl rfl rfl rfl,
    p7 _ "sha256=abc" "abc" (some "Ana") (some "Lee") rfl rfl rfl rfl rfl,
    p8 _ "sha256=abc" "abc" "KeyError: other" (some "Ana") (some "Lee")
      rfl rfl rfl rfl rfl rfl,
    p9 _ "sha256=abc" "abc" "June 15, 1990" (some "Ana") (some "Lee")
      [("VYsICm8rAEYx", .str "June 15, 1990")] rfl rfl rfl rfl rfl rfl rfl rfl,
    p10 _ "sha256=abc" "abc" "1990-06-15" "TypeError: join" (some "Ana") (some "Lee")
      [("VYsICm8rAEYx", .str "1990-06-15"), ("F0T49AYX7sf2", .int 5)] 34
      rfl rfl rfl rfl rfl rfl rfl rfl rfl,
    p11 _ "sha256=abc" "abc" "1990-06-15"
      "4. Environment: Ana trains at home with access to Not provided, Not provided. "
      (some "Ana") (some "Lee") [("VYsICm8rAEYx", .str "1990-06-15")] 34
      rfl rfl rfl rfl rfl rfl rfl rfl rfl rfl,
    p12 _ "sha256=abc" "abc" "1990-06-15"
      "4. Environment: Ana trains at home with access to Not provided, Not provided. "
      (some "Ana") (some "Lee") [("VYsICm8rAEYx", .str "1990-06-15")] 34
      rfl rfl rfl rfl rfl rfl rfl rfl rfl rfl rfl,
    p13 _ "sha256=abc" "abc" "1990-06-15"
      "4. Environment: Ana trains at home with access to Not provided, Not provided. "
      (some "Ana") (some "Lee") [("VYsICm8rAEYx", .str "1990-06-15")] 34
      rfl rfl rfl rfl rfl rfl rfl rfl rfl rfl rfl⟩

/-! ## Signature-verifier lemmas

The HMAC-SHA256 digest itself is library code (`hmac`, `hashlib`,
`base64`) outside the repository, so it enters `verify_signature` as the
parameter `hmac_b64`; these lemmas hold for every choice of it. The
claim that every single-bit mutation of the body is rejected is a
collision property of the concrete hash and is outside what the embedding
can settle. -/

/-- A payload carrying exactly the signature Typeform computes for it
verifies, whatever the digest function is. -/
theorem verify_signature_accepts_signed (hmac_b64 : String → String → String)
    (secret payload : String) :
    verify_signature hmac_b64 (some secret)
      (sign_payload hmac_b64 secret payload) payload = true := by
  simp [verify_signature, sign_payload]

/-- An exception while obtaining the secret (or computing the digest)
makes verification return false instead of propagating. -/
theorem verify_signature_false_on_exception (hmac_b64 : String → String → String)
    (received payload : String) :
    verify_signature hmac_b64 none received payload = false := rfl

/-- A provided signature differing from the recomputed digest is
rejected. -/
theorem verify_signature_rejects_mismatch (hmac_b64 : String → String → String)
    (secret received payload : String) (h : hmac_b64 secret payload ≠ received) :
    verify_signature hmac_b64 (some secret) received payload = false := by
  simp [verify_signature, h]

end SimplyFitness
